import Mathlib

/-!
Shallow embedding of the salvo `CatchPanic` middleware
(`crates/extra/src/catch_panic.rs`) and the `PathParam` extractor
(`crates/oapi/src/extract/parameter/path.rs`), with proofs of the
specified properties.
-/

set_option maxRecDepth 4000

/-! ## Data model -/

/-- Modelled from the spec: the `Request` data carrier of `salvo_core`,
reduced to the part the extractor reads — the matched path-parameter
mapping (name to raw string), supplied by the router collaborator. -/
structure Request where
  pathParams : List (String × String)
deriving Repr, DecidableEq

/-- Raw lookup of a path parameter by name in the request's mapping. -/
def Request.paramRaw (req : Request) (name : String) : Option String :=
  req.pathParams.lookup name

/-- Modelled from the spec: `Request::param` of `salvo_core` (not under
`src/`): look the name up in the path-parameter mapping, then convert the
raw string into the target type; `convert` stands for the target type's
deserializer and returns `none` on conversion failure. -/
def Request.param {T : Type} (req : Request) (convert : String → Option T)
    (name : String) : Option T :=
  (req.paramRaw name).bind convert

/-- `ParseError` of `salvo_core`, reduced to the one constructor
(`ParseError::other`) the extractor uses, carrying the message. -/
inductive ParseError where
  | other (message : String)
deriving Repr, DecidableEq

/-- Outcome of a Rust call that may panic: either an abnormal termination
carrying the panic message, or a normal return value. -/
inductive PanicOr (α : Type _) where
  | panicked (message : String)
  | value (v : α)
deriving Repr

/-! ## PathParam (`crates/oapi/src/extract/parameter/path.rs`) -/

/-- `PathParam<T>`: a parameter passed by the URI path, holding its name
and its converted value. -/
structure PathParam (T : Type) where
  name : String
  value : T
deriving Repr, DecidableEq

/-- `Extractible::extract` for `PathParam<T>`: the body is
`unimplemented!("path parameter can not be extracted from request")`,
an unconditional panic. -/
def PathParam.extract (T : Type) (_req : Request) :
    PanicOr (Except ParseError (PathParam T)) :=
  .panicked "not implemented: path parameter can not be extracted from request"

/-- `Extractible::extract_with_arg` for `PathParam<T>`: look the argument
name up in the request (lookup plus conversion); on `None`, fail with
`ParseError::other` and the fixed message; otherwise wrap the converted
value together with the argument name. -/
def PathParam.extract_with_arg {T : Type} (req : Request)
    (convert : String → Option T) (arg : String) :
    Except ParseError (PathParam T) :=
  match Request.param req convert arg with
  | none => .error (.other
      ("path parameter " ++ arg ++ " not found or convert to type failed"))
  | some value => .ok { name := arg, value := value }

/-- `Deserialize for PathParam<T>`: delegate to the inner type's
deserializer (represented by its result `inner`) and wrap the value with
the fixed name `"unknown"`. -/
def PathParam.deserialize {E T : Type} (inner : Except E T) :
    Except E (PathParam T) :=
  inner.map (fun value => { name := "unknown", value := value })

/-! ## Parameter metadata (`salvo_oapi` collaborator types) -/

/-- `ParameterIn`: the location of a parameter. -/
inductive ParameterIn where
  | Path
  | Query
  | Header
  | Cookie
deriving Repr, DecidableEq

/-- Modelled from the spec: the `Parameter` descriptor of `salvo_oapi`
(not under `src/`): name, location, description, required flag; the
schema component is not touched by this code. Identity key is
(name, location). -/
structure Parameter where
  name : String
  parameterIn : ParameterIn
  description : Option String
  required : Bool
deriving Repr, DecidableEq

/-- Modelled from the spec: `Parameter::new` of `salvo_oapi` (not under
`src/`): a fresh descriptor with the given name, no description, and
`required` not yet set. -/
def Parameter.new (name : String) : Parameter :=
  { name := name, parameterIn := .Path, description := none, required := false }

/-- Modelled from the spec: the `parameter_in` builder of `salvo_oapi`
(not under `src/`): set the location; path parameters are required by
default ("required defaults to true unless overridden elsewhere"). -/
def Parameter.parameter_in (p : Parameter) (loc : ParameterIn) : Parameter :=
  { p with parameterIn := loc,
           required := if loc = .Path then true else p.required }

/-- The `description` builder: set the description text. -/
def Parameter.set_description (p : Parameter) (d : String) : Parameter :=
  { p with description := some d }

/-- Two parameters share their identity key when name and location agree. -/
def Parameter.sameKey (p q : Parameter) : Bool :=
  decide (p.name = q.name ∧ p.parameterIn = q.parameterIn)

/-- Modelled from the spec: `Parameters::insert` of `salvo_oapi` (not
under `src/`): set semantics keyed by (name, location) — inserting a
parameter with a duplicate identity key replaces the prior entry
(last write wins). -/
def Parameters.insert (ps : List Parameter) (p : Parameter) : List Parameter :=
  ps.filter (fun q => !(Parameter.sameKey q p)) ++ [p]

/-- Modelled from the spec: the `Operation` aggregate of `salvo_oapi`
(not under `src/`), reduced to its parameter set. -/
structure Operation where
  parameters : List Parameter
deriving Repr, DecidableEq

/-- `AsParameter::parameter` for `PathParam<T>`: the body is
`panic!("path parameter must have a argument")`. -/
def PathParam.parameter (_T : Type) : PanicOr Parameter :=
  .panicked "path parameter must have a argument"

/-- `AsParameter::parameter_with_arg` for `PathParam<T>`:
`Parameter::new(arg).parameter_in(ParameterIn::Path).description(...)`. -/
def PathParam.parameter_with_arg (arg : String) : Parameter :=
  ((Parameter.new arg).parameter_in .Path).set_description
    ("Get parameter `" ++ arg ++ "` from request url path")

/-- `EndpointModifier::modify` for `PathParam<T>`: the body is
`panic!("path parameter can not modiify operation without argument")`
(typo as in the source). -/
def PathParam.modify (_T : Type) (_operation : Operation) : PanicOr Operation :=
  .panicked "path parameter can not modiify operation without argument"

/-- `EndpointModifier::modify_with_arg` for `PathParam<T>`: insert the
synthesized parameter into the operation's parameter set. -/
def PathParam.modify_with_arg (operation : Operation) (arg : String) :
    Operation :=
  { operation with
      parameters :=
        Parameters.insert operation.parameters (PathParam.parameter_with_arg arg) }

/-! ## CatchPanic (`crates/extra/src/catch_panic.rs`) -/

/-- The captured panic payload; `debugRepr` is its debug formatting,
the string `format!` renders for the payload. -/
structure PanicPayload where
  debugRepr : String
deriving Repr, DecidableEq

/-- Debug-format the captured payload. -/
def formatDebug (e : PanicPayload) : String :=
  e.debugRepr

/-- Log levels of the tracing collaborator. -/
inductive LogLevel where
  | error
  | warn
  | info
deriving Repr, DecidableEq

/-- One structured log event: level, message, and the `error` field. -/
structure LogEvent where
  level : LogLevel
  message : String
  error : String
deriving Repr, DecidableEq

/-- Modelled from the spec: `StatusError` of `salvo_core` (not under
`src/`): status code, canonical name, brief text, optional cause. -/
structure StatusError where
  code : Nat
  name : String
  brief : String
  cause : Option String
deriving Repr, DecidableEq

/-- Modelled from the spec: `StatusError::internal_server_error` of
`salvo_core` (not under `src/`): code 500, Internal Server Error. -/
def StatusError.internal_server_error : StatusError :=
  { code := 500, name := "Internal Server Error",
    brief := "Internal Server Error", cause := none }

/-- The `brief` builder: set the brief text. -/
def StatusError.set_brief (e : StatusError) (b : String) : StatusError :=
  { e with brief := b }

/-- The `cause` builder: set the cause text. -/
def StatusError.set_cause (e : StatusError) (c : String) : StatusError :=
  { e with cause := some c }

/-- Modelled from the spec: the `Response` data carrier of `salvo_core`
(not under `src/`): the currently rendered status error (last write
wins) plus the history of render calls, so that "exactly one conversion
per intercepted failure" is observable. -/
structure Response where
  statusError : Option StatusError
  renders : List StatusError
deriving Repr, DecidableEq

/-- `Response::render` of a `StatusError`: overwrite the current status
error and record the write. -/
def Response.render (res : Response) (e : StatusError) : Response :=
  { statusError := some e, renders := res.renders ++ [e] }

/-- The per-request heterogeneous store, reduced to a string map. -/
def Depot : Type := List (String × String)

/-- The mutable per-request state a handler receives: request, depot and
response, threaded explicitly. -/
structure ReqState where
  req : Request
  depot : Depot
  res : Response

/-- The fixed 500 outcome `CatchPanic` renders for a captured payload:
`StatusError::internal_server_error().brief("panic occurred on server")
.cause(Error::other(format!(..)))`. -/
def CatchPanic.panicStatus (e : PanicPayload) : StatusError :=
  (StatusError.internal_server_error.set_brief
    "panic occurred on server").set_cause (formatDebug e)

/-- `CatchPanic::handle`: run the downstream continuation
(`ctrl.call_next`, which returns the mutated state and, on abnormal
termination, the captured payload) under `catch_unwind`. On a normal
return, pass through. On a captured panic, emit one error-level log
event and render the fixed 500 outcome. The outer `Option PanicPayload`
is `handle`'s own abnormal-termination channel. -/
def CatchPanic.handle
    (call_next : ReqState → ReqState × Option PanicPayload)
    (s : ReqState) : (ReqState × List LogEvent) × Option PanicPayload :=
  match call_next s with
  | (s', none) => ((s', []), none)
  | (s', some e) =>
      (({ s' with res := s'.res.render (CatchPanic.panicStatus e) },
        [{ level := .error, message := "panic occurred",
           error := formatDebug e }]),
       none)

/-! ## Theorems -/

/-- C1: when the downstream chain terminates abnormally with payload `e`,
`CatchPanic::handle` writes the response to the fixed outcome — status
500 Internal Server Error, brief "panic occurred on server", cause equal
to the debug-formatted payload — and emits exactly one error-level log
event whose error field is the formatted payload and whose message
contains "panic occurred". -/
theorem catch_panic_fixed_outcome
    (call_next : ReqState → ReqState × Option PanicPayload)
    (s s' : ReqState) (e : PanicPayload)
    (h : call_next s = (s', some e)) :
    (CatchPanic.handle call_next s).1.1.res.statusError =
      some { code := 500, name := "Internal Server Error",
             brief := "panic occurred on server",
             cause := some (formatDebug e) } ∧
    (CatchPanic.handle call_next s).1.2 =
      [{ level := .error, message := "panic occurred",
         error := formatDebug e }] ∧
    ∀ ev ∈ (CatchPanic.handle call_next s).1.2,
      ∃ l r, ev.message = l ++ "panic occurred" ++ r := by
  refine ⟨?_, ?_, ?_⟩ <;>
    simp [CatchPanic.handle, h, CatchPanic.panicStatus, formatDebug,
      StatusError.internal_server_error, StatusError.set_brief,
      StatusError.set_cause, Response.render]
  exact ⟨"", "", by simp⟩

/-- Witness for C1 at a concrete panicking chain. -/
theorem catch_panic_fixed_outcome_witness :
    let s : ReqState :=
      { req := { pathParams := [] }, depot := ([] : List (String × String)),
        res := { statusError := none, renders := [] } }
    let chain : ReqState → ReqState × Option PanicPayload :=
      fun t => (t, some { debugRepr := "boom" })
    (CatchPanic.handle chain s).1.1.res.statusError =
      some { code := 500, name := "Internal Server Error",
             brief := "panic occurred on server",
             cause := some (formatDebug { debugRepr := "boom" }) } ∧
    (CatchPanic.handle chain s).1.2 =
      [{ level := .error, message := "panic occurred",
         error := formatDebug { debugRepr := "boom" } }] ∧
    ∀ ev ∈ (CatchPanic.handle chain s).1.2,
      ∃ l r, ev.message = l ++ "panic occurred" ++ r :=
  catch_panic_fixed_outcome _ _ _ { debugRepr := "boom" } rfl

/-- C2: if the argument name is absent from the request's path-parameter
mapping, or the raw string fails to convert, `extract_with_arg` fails
with `ParseError::other` carrying the fixed message, and the message
contains the argument name. -/
theorem extract_with_arg_failure {T : Type} (req : Request)
    (convert : String → Option T) (arg : String)
    (h : req.paramRaw arg = none ∨
         ∃ raw, req.paramRaw arg = some raw ∧ convert raw = none) :
    PathParam.extract_with_arg req convert arg =
      .error (.other
        ("path parameter " ++ arg ++ " not found or convert to type failed")) ∧
    ∃ msg l r, PathParam.extract_with_arg req convert arg =
        .error (.other msg) ∧ msg = l ++ arg ++ r := by
  have hp : Request.param req convert arg = none := by
    rcases h with h | ⟨raw, hraw, hconv⟩
    · simp [Request.param, h]
    · simp [Request.param, hraw, hconv]
  refine ⟨by simp [PathParam.extract_with_arg, hp], ?_⟩
  exact ⟨"path parameter " ++ arg ++ " not found or convert to type failed",
    "path parameter ", " not found or convert to type failed",
    by simp [PathParam.extract_with_arg, hp], rfl⟩

/-- Witness for C2: the name `id` is absent from an empty mapping. -/
theorem extract_with_arg_failure_witness :
    PathParam.extract_with_arg { pathParams := [] } String.toNat? "id" =
      .error (.other
        ("path parameter " ++ "id" ++ " not found or convert to type failed")) ∧
    ∃ msg l r, PathParam.extract_with_arg { pathParams := [] }
        String.toNat? "id" = .error (.other msg) ∧ msg = l ++ "id" ++ r :=
  extract_with_arg_failure { pathParams := [] } String.toNat? "id"
    (Or.inl rfl)

/-- C3: if the mapping supplies, at the argument name, a raw string that
converts to the target type, `extract_with_arg` succeeds and returns a
`PathParam` holding the argument name and the converted value. -/
theorem extract_with_arg_success {T : Type} (req : Request)
    (convert : String → Option T) (arg raw : String) (v : T)
    (h1 : req.paramRaw arg = some raw) (h2 : convert raw = some v) :
    PathParam.extract_with_arg req convert arg =
      .ok { name := arg, value := v } := by
  simp [PathParam.extract_with_arg, Request.param, h1, h2]

/-- Witness for C3: `id` maps to `"42"`, converted by the identity
deserializer. -/
theorem extract_with_arg_success_witness :
    PathParam.extract_with_arg { pathParams := [("id", "42")] }
      Option.some "id" = .ok { name := "id", value := "42" } :=
  extract_with_arg_success { pathParams := [("id", "42")] }
    Option.some "id" "42" "42" rfl rfl

/-- C4: every unqualified entry point of `PathParam` — `extract`,
`parameter` and `modify` — terminates abnormally (a panic, not an
`ExtractionError` value), for every type, request and operation. -/
theorem unqualified_entry_points_panic :
    (∀ (T : Type) (req : Request),
      PathParam.extract T req = PanicOr.panicked
        "not implemented: path parameter can not be extracted from request") ∧
    (∀ (T : Type),
      PathParam.parameter T = PanicOr.panicked
        "path parameter must have a argument") ∧
    (∀ (T : Type) (op : Operation),
      PathParam.modify T op = PanicOr.panicked
        "path parameter can not modiify operation without argument") :=
  ⟨fun _ _ => rfl, fun _ => rfl, fun _ _ => rfl⟩

/-- C5: when the downstream chain terminates abnormally,
`CatchPanic::handle` itself still completes normally (its own panic
channel is `none`, so nothing propagates past the boundary), and it
performs exactly one render beyond the downstream writes — the single
500 conversion. -/
theorem catch_panic_no_propagation
    (call_next : ReqState → ReqState × Option PanicPayload)
    (s s' : ReqState) (e : PanicPayload)
    (h : call_next s = (s', some e)) :
    (CatchPanic.handle call_next s).2 = none ∧
    (CatchPanic.handle call_next s).1.1.res.renders =
      s'.res.renders ++ [CatchPanic.panicStatus e] ∧
    (CatchPanic.panicStatus e).code = 500 := by
  refine ⟨?_, ?_, rfl⟩ <;> simp [CatchPanic.handle, h, Response.render]

/-- Witness for C5 at a concrete panicking chain. -/
theorem catch_panic_no_propagation_witness :
    let s : ReqState :=
      { req := { pathParams := [] }, depot := ([] : List (String × String)),
        res := { statusError := none, renders := [] } }
    let chain : ReqState → ReqState × Option PanicPayload :=
      fun t => (t, some { debugRepr := "oops" })
    (CatchPanic.handle chain s).2 = none ∧
    (CatchPanic.handle chain s).1.1.res.renders =
      s.res.renders ++ [CatchPanic.panicStatus { debugRepr := "oops" }] ∧
    (CatchPanic.panicStatus { debugRepr := "oops" }).code = 500 :=
  catch_panic_no_propagation _ _ _ { debugRepr := "oops" } rfl

/-- Helper: filtering by a key from a list already purged of that key
yields the empty list. -/
theorem filter_key_of_purged (ps : List Parameter) (p : Parameter) :
    ((ps.filter (fun q => !(Parameter.sameKey q p))).filter
      (fun q => Parameter.sameKey q p)) = [] := by
  induction ps with
  | nil => rfl
  | cons a as ih =>
    cases hk : Parameter.sameKey a p <;>
      simp [List.filter_cons, hk, ih]

/-- Helper: after inserting `p`, the entries carrying `p`'s identity key
are exactly `[p]`. -/
theorem filter_key_insert (ps : List Parameter) (p : Parameter) :
    ((Parameters.insert ps p).filter (fun q => Parameter.sameKey q p)) =
      [p] := by
  have hself : Parameter.sameKey p p = true := by
    simp [Parameter.sameKey]
  simp [Parameters.insert, List.filter_append, filter_key_of_purged, hself]

/-- C6: after two invocations of `modify_with_arg` whose synthesized
parameters share the identity key (same argument name, location Path),
the operation's parameter set holds exactly one entry for that key, and
it is the most recently inserted parameter. -/
theorem modify_with_arg_dedup (op : Operation) (arg : String) :
    ((PathParam.modify_with_arg (PathParam.modify_with_arg op arg)
        arg).parameters.filter
      (fun q => Parameter.sameKey q (PathParam.parameter_with_arg arg))) =
      [PathParam.parameter_with_arg arg] ∧
    ((PathParam.modify_with_arg (PathParam.modify_with_arg op arg)
        arg).parameters.filter
      (fun q => Parameter.sameKey q (PathParam.parameter_with_arg arg))).length
      = 1 := by
  refine ⟨?_, ?_⟩ <;>
    simp [PathParam.modify_with_arg, filter_key_insert]

/-- C7: `parameter_with_arg` produces a descriptor with the given name,
location Path, the fixed description with the name substituted, and
`required` true by default. -/
theorem parameter_with_arg_shape (arg : String) :
    (PathParam.parameter_with_arg arg).name = arg ∧
    (PathParam.parameter_with_arg arg).parameterIn = ParameterIn.Path ∧
    (PathParam.parameter_with_arg arg).description =
      some ("Get parameter `" ++ arg ++ "` from request url path") ∧
    (PathParam.parameter_with_arg arg).required = true :=
  ⟨rfl, rfl, rfl, rfl⟩

/-- C8: metadata synthesis is a deterministic pure function of the name:
two invocations of `parameter_with_arg` on equal names yield structurally
identical descriptors. -/
theorem parameter_with_arg_deterministic (n m : String) (h : n = m) :
    PathParam.parameter_with_arg n = PathParam.parameter_with_arg m := by
  rw [h]

/-- Witness for C8 at the concrete name `id`. -/
theorem parameter_with_arg_deterministic_witness :
    PathParam.parameter_with_arg "id" = PathParam.parameter_with_arg "id" :=
  parameter_with_arg_deterministic "id" "id" rfl

/-- C9: when the downstream chain completes normally,
`CatchPanic::handle` is a pure pass-through: the state is exactly what
the chain produced, no log event is emitted, and no panic escapes. -/
theorem catch_panic_pass_through
    (call_next : ReqState → ReqState × Option PanicPayload)
    (s s' : ReqState) (h : call_next s = (s', none)) :
    CatchPanic.handle call_next s = ((s', []), none) := by
  simp [CatchPanic.handle, h]

/-- Witness for C9 at a concrete normally-completing chain. -/
theorem catch_panic_pass_through_witness :
    let s : ReqState :=
      { req := { pathParams := [("id", "42")] },
        depot := ([] : List (String × String)),
        res := { statusError := none, renders := [] } }
    CatchPanic.handle (fun t => (t, none)) s = ((s, []), none) :=
  catch_panic_pass_through (fun t => (t, none)) _ _ rfl

/-- C10: deserializing a `PathParam` through its `Deserialize`
implementation: whenever the inner deserializer accepts the input and
yields `v`, the result is a `PathParam` with the literal name
`"unknown"` and value `v`. -/
theorem deserialize_fixed_name {E T : Type} (inner : Except E T) (v : T)
    (h : inner = .ok v) :
    PathParam.deserialize inner = .ok { name := "unknown", value := v } := by
  subst h
  rfl

/-- Witness for C10 at a concrete accepted input. -/
theorem deserialize_fixed_name_witness :
    PathParam.deserialize (E := Unit) (Except.ok (3 : Nat)) =
      .ok { name := "unknown", value := 3 } :=
  deserialize_fixed_name (Except.ok 3) 3 rfl
